import Mathlib

/-!
Shallow embedding of src/app.py, a FastAPI service that proxies requests to
AWS (API Gateway, S3) with optional role assumption and SigV4 signing.

External dependencies (boto3/botocore SDK calls, the requests HTTP client,
the json stdlib parser) are modelled as oracles packed into an `AwsEnv`
record: each field holds the outcome the dependency would produce during the
one request being modelled (an `Except String` whose error carries the
exception's string message, or an `Option` for an absent value).  The
handlers themselves are translated statement by statement from app.py, with
Python exception flow made explicit via the `PyExc` type and the outbound
SDK/HTTP calls a handler issues recorded in a trace of `Event`s.

Python truthiness (`if x:`) on optional strings and JSON values is embedded
by `pyStrOptTruthy` / `jvTruthy`: `None`, `''`, `0`, `[]`, `{}` are falsy.

`HTTPException` is an ordinary `Exception` subclass in Python, so a broad
`except Exception` inside a handler catches it; Starlette renders
`str(HTTPException(s, d))` as `"{s}: {d}"`.  Both facts are embedded
faithfully (`PyExc.toStr`), because the handlers in app.py re-wrap caught
exceptions into fresh `HTTPException(500, str(e))` values.
-/

/-- JSON values as produced by `json.loads` (numbers restricted to integers;
no claim involves fractional numbers). -/
inductive JValue where
  | null : JValue
  | bool (b : Bool) : JValue
  | num (n : Int) : JValue
  | str (s : String) : JValue
  | arr (xs : List JValue) : JValue
  | obj (fields : List (String × JValue)) : JValue

/-- Python truthiness of a JSON value. -/
def jvTruthy : JValue → Bool
  | .null => false
  | .bool b => b
  | .num n => decide (n ≠ 0)
  | .str s => !s.isEmpty
  | .arr xs => !xs.isEmpty
  | .obj fs => !fs.isEmpty

/-- Python truthiness of an `Optional[str]`: `None` and `''` are falsy. -/
def pyStrOptTruthy : Option String → Bool
  | none => false
  | some s => !s.isEmpty

/-- Python exceptions that app.py raises or catches by class. -/
inductive PyExc where
  | http (status : Nat) (detail : String) : PyExc
  | jsonDecode (msg : String) : PyExc
  | keyError (key : String) : PyExc
  | typeError (msg : String) : PyExc

/-- `str(e)` for each embedded exception class.  Starlette defines
`HTTPException.__str__` as `f"{self.status_code}: {self.detail}"`;
`str(KeyError(k))` is the repr of the key, i.e. the key in quotes. -/
def PyExc.toStr : PyExc → String
  | .http s d => toString s ++ ": " ++ d
  | .jsonDecode m => m
  | .keyError k => "'" ++ k ++ "'"
  | .typeError m => m

/-- The classes caught by `except (json.JSONDecodeError, KeyError)` at
app.py line 152. -/
def PyExc.caughtByInnerExcept : PyExc → Bool
  | .jsonDecode _ => true
  | .keyError _ => true
  | _ => false

/-- botocore `Credentials` (token present for assumed-role credentials,
possibly absent for the default chain). -/
structure Credentials where
  access_key : String
  secret_key : String
  token : Option String

/-- The `Credentials` dictionary of an `sts.assume_role` response. -/
structure AssumeRoleResp where
  accessKeyId : String
  secretAccessKey : String
  sessionToken : String

/-- An `sts.get_caller_identity` response. -/
structure CallerIdentity where
  account : String
  arn : String
  userId : String

/-- A `requests` response: status code, headers dict, body text. -/
structure HttpResp where
  status_code : Nat
  headers : List (String × String)
  text : String

/-- An `s3.put_object` response; `.get` of a missing key yields `none`. -/
structure PutObjectResp where
  etag : Option String
  version_id : Option String

/-- Oracle outcomes of the external dependencies for one request:
each `Except String` error carries `str(e)` of the exception the
dependency raised, `jsonLoads` is the `json.loads` stdlib parser, and
`amzDate` the signing timestamp. -/
structure AwsEnv where
  assumeRole : Except String AssumeRoleResp
  defaultCreds : Option Credentials
  callerIdentity : Except String CallerIdentity
  httpResp : Except String HttpResp
  putObjectResp : Except String PutObjectResp
  jsonLoads : String → Except String JValue
  amzDate : String

/-- Outbound SDK/HTTP calls and credential log lines a handler emits,
in order. -/
inductive Event where
  | stsAssumeRole (roleArn : String) : Event
  | stsAssumeRoleForm (roleArn : JValue) : Event
  | getCallerIdentity : Event
  | httpRequest (method url : String) (headers : List (String × String))
      (data : Option String) (timeout : Nat) : Event
  | s3PutObject (bucket key : JValue) (body : String)
      (contentType : String) : Event
  | logCreds (accessKey secretKey tokenShown : String) : Event

/-- `urllib.parse.urlparse(url).netloc`: the authority component between
the `//` and the next `/`, `?` or `#`. -/
def urlNetloc (url : String) : String :=
  match url.splitOn "//" with
  | _ :: rest :: _ =>
      ((((rest.splitOn "/").headD "").splitOn "?").headD "" |>.splitOn "#").headD ""
  | _ => ""

/-- Model of botocore `SigV4Auth(credentials, service, region).add_auth`:
appends the signing headers (`X-Amz-Date`, the session token when one is
set, and `Authorization`) to the request headers without modifying any
existing header.  The `Authorization` value abstracts the real signature
but records the credential scope as botocore formats it. -/
def sigv4AddAuth (creds : Credentials) (amzDate service region : String)
    (headers : List (String × String)) : List (String × String) :=
  let h1 := headers ++ [("X-Amz-Date", amzDate)]
  let h2 := match creds.token with
    | some t => h1 ++ [("X-Amz-Security-Token", t)]
    | none => h1
  h2 ++ [("Authorization",
    "AWS4-HMAC-SHA256 Credential=" ++ creds.access_key ++ "/" ++ amzDate
      ++ "/" ++ region ++ "/" ++ service ++ "/aws4_request, SignedHeaders=..., Signature=...")]

/-- The pydantic request model of `/apigw` and `/debug-apigw`
(app.py lines 21-26), defaults included. -/
structure APIGatewayRequest where
  api_gateway_url : String
  method : String := "GET"
  body : Option String := none
  region : String := "ap-northeast-1"
  assume_role_arn : Option String := none

/-- A Starlette `UploadFile`: its `content_type` and the bytes `read()`
returns (modelled as a string). -/
structure UploadFileModel where
  content_type : Option String
  content : String

/-- Result of `get_credentials`: the returned credentials or the raised
exception, plus the SDK calls made. -/
structure GetCredsOut where
  result : Except PyExc Credentials
  trace : List Event

/-- app.py lines 36-59: `get_credentials(assume_role_arn)`.  With a truthy
role ARN it calls `sts.assume_role` and wraps the temporary credentials,
turning any SDK failure into `HTTPException(500, "Failed to assume role: "
+ str(e))`; otherwise it returns the default-chain credentials or raises
`HTTPException(500, "No AWS credentials found")` when there are none. -/
def get_credentials (env : AwsEnv) (assume_role_arn : Option String) : GetCredsOut :=
  if pyStrOptTruthy assume_role_arn then
    let arn := assume_role_arn.getD ""
    match env.assumeRole with
    | .ok r =>
        ⟨.ok ⟨r.accessKeyId, r.secretAccessKey, some r.sessionToken⟩,
         [.stsAssumeRole arn]⟩
    | .error m =>
        ⟨.error (.http 500 ("Failed to assume role: " ++ m)),
         [.stsAssumeRole arn]⟩
  else
    match env.defaultCreds with
    | none => ⟨.error (.http 500 "No AWS credentials found"), []⟩
    | some c => ⟨.ok c, []⟩

/-- Responses of `POST /apigw`: the success dictionary (app.py lines
114-119), the `JSONResponse` of the `RequestException` branch (lines
123-130), or an uncaught `HTTPException` rendered by FastAPI. -/
inductive ApigwResponse where
  | success (status_code : Nat) (headers : List (String × String))
      (body : String) (request_headers_sent : List (String × String)) : ApigwResponse
  | requestFailed (detail : String)
      (request_headers : Option (List (String × String))) : ApigwResponse
  | httpError (status : Nat) (detail : String) : ApigwResponse

/-- HTTP status of a `/apigw` response. -/
def ApigwResponse.status : ApigwResponse → Nat
  | .success _ _ _ _ => 200
  | .requestFailed _ _ => 500
  | .httpError s _ => s

/-- The `detail` field of a `/apigw` error response. -/
def ApigwResponse.detail : ApigwResponse → Option String
  | .success _ _ _ _ => none
  | .requestFailed d _ => some d
  | .httpError _ d => some d

/-- app.py lines 68-133: `POST /apigw`.  Resolves credentials, builds the
`Host`/`Content-Type` headers, signs with SigV4, issues the proxied call
with `timeout=30`, and returns its status/headers/body.  A
`RequestException` becomes a 500 `JSONResponse` whose `detail` is
`str(e)`; any other exception - including the `HTTPException` raised by
`get_credentials`, which `except Exception` also catches - is re-raised
as `HTTPException(500, str(e))`. -/
def call_api_gateway (env : AwsEnv) (req : APIGatewayRequest) :
    ApigwResponse × List Event :=
  let gc := get_credentials env req.assume_role_arn
  match gc.result with
  | .error e => (.httpError 500 e.toStr, gc.trace)
  | .ok credentials =>
    let host := urlNetloc req.api_gateway_url
    let headers := [("Host", host),
      ("Content-Type",
        if pyStrOptTruthy req.body then "application/json" else "text/plain")]
    let signed := sigv4AddAuth credentials env.amzDate "execute-api" req.region headers
    let callEv : Event := .httpRequest req.method req.api_gateway_url signed req.body 30
    match env.httpResp with
    | .error m => (.requestFailed m (some signed), gc.trace ++ [callEv])
    | .ok resp =>
        (.success resp.status_code resp.headers resp.text signed,
         gc.trace ++ [callEv])

/-- The `credentials_used` dictionary of a `/debug-apigw` success response
(app.py lines 298-302). -/
structure CredentialsUsed where
  access_key_id : String
  secret_access_key : String
  session_token : Option String

/-- The `request_info` dictionary of a `/debug-apigw` success response
(app.py lines 303-308). -/
structure RequestInfo where
  method : String
  url : String
  region : String
  body : Option String

/-- The success dictionary of `POST /debug-apigw` (app.py lines 292-309). -/
structure DebugSuccess where
  current_identity : CallerIdentity
  status_code : Nat
  response_headers : List (String × String)
  response_body : String
  request_headers_sent : List (String × String)
  credentials_used : CredentialsUsed
  request_info : RequestInfo

/-- Responses of `POST /debug-apigw`: success, or an `HTTPException`
rendered by FastAPI (this handler has no `RequestException` branch). -/
inductive DebugResponse where
  | success (d : DebugSuccess) : DebugResponse
  | httpError (status : Nat) (detail : String) : DebugResponse

/-- HTTP status of a `/debug-apigw` response. -/
def DebugResponse.status : DebugResponse → Nat
  | .success _ => 200
  | .httpError s _ => s

/-- `x if x else 'None'`: how the debug handler renders the session token
in its log line (app.py line 235). -/
def tokenShownOf : Option String → String
  | none => "None"
  | some t => if t.isEmpty then "None" else t

/-- app.py lines 218-313: `POST /debug-apigw`.  Same flow as `/apigw` but
it first logs the full credentials (modelled as the `logCreds` event
carrying exactly the values interpolated into the log lines), looks up the
caller identity, and on success returns the credentials in the body; its
single `except Exception` turns any failure into
`HTTPException(500, str(e))`. -/
def debug_api_gateway (env : AwsEnv) (req : APIGatewayRequest) :
    DebugResponse × List Event :=
  let gc := get_credentials env req.assume_role_arn
  match gc.result with
  | .error e => (.httpError 500 e.toStr, gc.trace)
  | .ok credentials =>
    let logEv : Event :=
      .logCreds credentials.access_key credentials.secret_key
        (tokenShownOf credentials.token)
    match env.callerIdentity with
    | .error m => (.httpError 500 m, gc.trace ++ [logEv, .getCallerIdentity])
    | .ok identity =>
      let host := urlNetloc req.api_gateway_url
      let headers := [("Host", host),
        ("Content-Type",
          if pyStrOptTruthy req.body then "application/json" else "text/plain")]
      let signed := sigv4AddAuth credentials env.amzDate "execute-api" req.region headers
      let callEv : Event := .httpRequest req.method req.api_gateway_url signed req.body 30
      let tr := gc.trace ++ [logEv, .getCallerIdentity, callEv]
      match env.httpResp with
      | .error m => (.httpError 500 m, tr)
      | .ok resp =>
          (.success
            { current_identity := identity
              status_code := resp.status_code
              response_headers := resp.headers
              response_body := resp.text
              request_headers_sent := signed
              credentials_used :=
                { access_key_id := credentials.access_key
                  secret_access_key := credentials.secret_key
                  session_token :=
                    if pyStrOptTruthy credentials.token then credentials.token
                    else none }
              request_info :=
                { method := req.method
                  url := req.api_gateway_url
                  region := req.region
                  body := req.body } }, tr)

/-- Responses of `POST /bucket`: the success dictionary (app.py lines
187-193; its `message` field is the constant string
"File uploaded successfully"), or an `HTTPException` rendered by
FastAPI. -/
inductive UploadResponse where
  | success (bucket key : JValue) (etag version_id : Option String) : UploadResponse
  | httpError (status : Nat) (detail : String) : UploadResponse

/-- HTTP status of a `/bucket` response. -/
def UploadResponse.status : UploadResponse → Nat
  | .success _ _ _ _ => 200
  | .httpError s _ => s

/-- The `detail` field of a `/bucket` error response. -/
def UploadResponse.detail : UploadResponse → Option String
  | .success _ _ _ _ => none
  | .httpError _ d => some d

/-- Python truthiness of an `Optional` JSON value: `None` is falsy,
otherwise the value's own truthiness applies. -/
def jvOptTruthy : Option JValue → Bool
  | none => false
  | some v => jvTruthy v

/-- `d[key]` on a parsed JSON value: a `KeyError` when the key is absent
from a dict, a `TypeError` when the value is not a dict. -/
def jvSubscript (v : JValue) (key : String) : Except PyExc JValue :=
  match v with
  | .obj fields =>
    match fields.lookup key with
    | some x => .ok x
    | none => .error (.keyError key)
  | _ => .error (.typeError "value is not subscriptable by string keys")

/-- `d.get(key)` on a parsed JSON dict. -/
def jvGet (v : JValue) (key : String) : Option JValue :=
  match v with
  | .obj fields => fields.lookup key
  | _ => none

/-- app.py lines 146-153: the inner `try` of `upload_to_s3`, parsing the
form field.  `json.loads` failures and missing keys become
`HTTPException(400, "Invalid request format: " + str(e))`; other
exceptions (for example a `TypeError` when the JSON is not an object)
propagate unchanged. -/
def parseUploadRequest (env : AwsEnv) (request : String) :
    Except PyExc (JValue × JValue × JValue × Option JValue) :=
  let inner : Except PyExc (JValue × JValue × JValue × Option JValue) := do
    let rd ← match env.jsonLoads request with
      | .ok v => .ok v
      | .error m => .error (.jsonDecode m)
    let bn ← jvSubscript rd "bucket_name"
    let ok ← jvSubscript rd "object_key"
    let region := (jvGet rd "region").getD (.str "ap-northeast-1")
    let arn := jvGet rd "assume_role_arn"
    pure (bn, ok, region, arn)
  match inner with
  | .ok x => .ok x
  | .error e =>
    if e.caughtByInnerExcept then
      .error (.http 400 ("Invalid request format: " ++ e.toStr))
    else .error e

/-- `file.content_type or 'application/octet-stream'` (app.py line 182):
the default applies when the content type is `None` or empty. -/
def uploadContentType (file : UploadFileModel) : String :=
  match file.content_type with
  | some s => if s.isEmpty then "application/octet-stream" else s
  | none => "application/octet-stream"

/-- app.py lines 136-197: `POST /bucket`.  Parses the JSON form field,
optionally assumes the role inline (no `get_credentials` here), uploads
the file with `put_object`, and returns the ETag/VersionId.  The outer
`except Exception` turns every exception into `HTTPException(500,
str(e))` - including the `HTTPException(400, ...)` the inner `except`
raises for malformed input, because `HTTPException` is an `Exception`. -/
def upload_to_s3 (env : AwsEnv) (file : UploadFileModel) (request : String) :
    UploadResponse × List Event :=
  match parseUploadRequest env request with
  | .error e => (.httpError 500 e.toStr, [])
  | .ok (bucket_name, object_key, _region, arnOpt) =>
    let arnTruthy := jvOptTruthy arnOpt
    let credsTrace : Except String (List Event) :=
      if arnTruthy then
        match env.assumeRole with
        | .error m => .error m
        | .ok _ => .ok [.stsAssumeRoleForm (arnOpt.getD .null)]
      else .ok []
    match credsTrace with
    | .error m => (.httpError 500 m, [.stsAssumeRoleForm (arnOpt.getD .null)])
    | .ok tr =>
      let ct := uploadContentType file
      let putEv : Event := .s3PutObject bucket_name object_key file.content ct
      match env.putObjectResp with
      | .error m => (.httpError 500 m, tr ++ [putEv])
      | .ok pr =>
          (.success bucket_name object_key pr.etag pr.version_id, tr ++ [putEv])

/-- Responses of `GET /test-credentials` (app.py lines 200-215). -/
inductive TestCredsResponse where
  | success (account user_arn user_id : String) : TestCredsResponse
  | httpError (status : Nat) (detail : String) : TestCredsResponse

/-- app.py lines 200-215: `GET /test-credentials`.  Returns the caller
identity of the default credential chain, or `HTTPException(500, str(e))`
on failure. -/
def test_credentials (env : AwsEnv) : TestCredsResponse × List Event :=
  match env.callerIdentity with
  | .error m => (.httpError 500 m, [.getCallerIdentity])
  | .ok i => (.success i.account i.arn i.userId, [.getCallerIdentity])

/-! ### Concrete fixtures used by witnesses and counterexamples -/

/-- Default-chain credentials used in concrete runs. -/
def cDefault : Credentials := ⟨"AKIADEFAULT", "defaultsecret", none⟩

/-- A successful `assume_role` response used in concrete runs. -/
def arOk : AssumeRoleResp := ⟨"ASIAASSUMED", "assumedsecret", "assumedtoken"⟩

/-- A caller identity used in concrete runs. -/
def idOk : CallerIdentity :=
  ⟨"123456789012", "arn:aws:iam::123456789012:user/tester", "AIDAEXAMPLE"⟩

/-- A proxied HTTP response used in concrete runs. -/
def respOk : HttpResp := ⟨200, [("x-amzn-requestid", "req-1")], "hello"⟩

/-- A `put_object` response used in concrete runs. -/
def putOk : PutObjectResp := ⟨some "etag-1", some "version-1"⟩

/-- A well-formed upload descriptor string and its parse. -/
def goodReqStr : String :=
  "\x7b\"bucket_name\": \"my-bucket\", \"object_key\": \"my/key.txt\"\x7d"

/-- The fields `json.loads` yields for `goodReqStr`. -/
def goodUploadFields : List (String × JValue) :=
  [("bucket_name", .str "my-bucket"), ("object_key", .str "my/key.txt")]

/-- Oracle outcomes where every external call succeeds; `jsonLoads`
behaves as the stdlib parser does on the three strings the concrete runs
use and reports a decode error elsewhere. -/
def envOk : AwsEnv :=
  { assumeRole := .ok arOk
    defaultCreds := some cDefault
    callerIdentity := .ok idOk
    httpResp := .ok respOk
    putObjectResp := .ok putOk
    jsonLoads := fun s =>
      if s = goodReqStr then .ok (.obj goodUploadFields)
      else if s = "\x7b\x7d" then .ok (.obj [])
      else .error "Expecting value: line 1 column 1 (char 0)"
    amzDate := "20261012T000000Z" }

/-- A `/apigw` request without a role ARN and without a body. -/
def reqPlain : APIGatewayRequest :=
  { api_gateway_url := "https://abc.execute-api.ap-northeast-1.amazonaws.com/prod/items" }

/-- A `/apigw` request with a body. -/
def reqWithBody : APIGatewayRequest :=
  { api_gateway_url := "https://abc.execute-api.ap-northeast-1.amazonaws.com/prod/items"
    method := "POST"
    body := some "\x7b\"k\": 1\x7d" }

/-- A `/apigw` request that assumes a role. -/
def reqAssume : APIGatewayRequest :=
  { api_gateway_url := "https://abc.execute-api.ap-northeast-1.amazonaws.com/prod/items"
    assume_role_arn := some "arn:aws:iam::222222222222:role/CrossAccount" }

/-- An uploaded file with a content type. -/
def fileTxt : UploadFileModel := ⟨some "text/plain", "file-bytes"⟩

/-! ### Claim theorems -/

/-- C7: on a successful `GET /test-credentials` the response fields
`account`, `user_arn`, `user_id` are exactly the `Account`, `Arn` and
`UserId` of the `get_caller_identity` response obtained from the default
credential chain (app.py lines 200-212). -/
theorem test_credentials_returns_caller_identity (env : AwsEnv) (i : CallerIdentity)
    (h : env.callerIdentity = .ok i) :
    (test_credentials env).1 = .success i.account i.arn i.userId ∧
    Event.getCallerIdentity ∈ (test_credentials env).2 := by
  simp [test_credentials, h]

/-- Witness for C7 at the concrete environment `envOk`. -/
theorem test_credentials_returns_caller_identity_witness :
    (test_credentials envOk).1 = .success idOk.account idOk.arn idOk.userId ∧
    Event.getCallerIdentity ∈ (test_credentials envOk).2 :=
  test_credentials_returns_caller_identity envOk idOk rfl

/-- Timeouts of the outbound `requests.request` calls in a trace. -/
def httpTimeouts (tr : List Event) : List Nat :=
  tr.filterMap fun e => match e with
    | .httpRequest _ _ _ _ t => some t
    | _ => none

/-- C8: on every `/apigw` and `/debug-apigw` request, at most one proxied
HTTP call is issued (so no retry is ever attempted) and any issued call
carries `timeout=30` (app.py lines 103-109 and 283-289). -/
theorem proxied_call_timeout_thirty_no_retry (env : AwsEnv) (req : APIGatewayRequest) :
    (httpTimeouts (call_api_gateway env req).2 = []
      ∨ httpTimeouts (call_api_gateway env req).2 = [30]) ∧
    (httpTimeouts (debug_api_gateway env req).2 = []
      ∨ httpTimeouts (debug_api_gateway env req).2 = [30]) := by
  obtain ⟨ar, dc, ci, hr, po, jl, ad⟩ := env
  constructor
  · unfold call_api_gateway get_credentials
    by_cases hT : pyStrOptTruthy req.assume_role_arn <;>
      cases ar <;> cases dc <;> cases hr <;>
        simp_all [httpTimeouts]
  · unfold debug_api_gateway get_credentials
    by_cases hT : pyStrOptTruthy req.assume_role_arn <;>
      cases ar <;> cases dc <;> cases ci <;> cases hr <;>
        simp_all [httpTimeouts]

/-- C3: `get_credentials` with a supplied (non-empty) role ARN calls
`sts.assume_role` and returns credentials whose access key, secret key and
token are the `AccessKeyId`, `SecretAccessKey` and `SessionToken` of the
assume-role response; without a role ARN it returns the default-chain
credentials and makes no SDK call (app.py lines 36-59). -/
theorem get_credentials_assume_or_default (env : AwsEnv) :
    (∀ s r, s ≠ "" → env.assumeRole = .ok r →
      (get_credentials env (some s)).result
          = .ok ⟨r.accessKeyId, r.secretAccessKey, some r.sessionToken⟩ ∧
      (get_credentials env (some s)).trace = [.stsAssumeRole s]) ∧
    (∀ c, env.defaultCreds = some c →
      (get_credentials env none).result = .ok c ∧
      (get_credentials env none).trace = []) := by
  constructor
  · intro s r hs hA
    have he : s.isEmpty = false := by
      cases h : s.isEmpty
    
      · rfl
      · exact absurd ((String.isEmpty_iff s).mp h) hs
    simp [get_credentials, pyStrOptTruthy, he, hA]
  · intro c hc
    simp [get_credentials, pyStrOptTruthy, hc]

/-- Witness for C3: a concrete non-empty role ARN with a successful
assume-role outcome, and a concrete default chain. -/
theorem get_credentials_assume_or_default_witness :
    ((get_credentials envOk (some "arn:aws:iam::222222222222:role/CrossAccount")).result
        = .ok ⟨arOk.accessKeyId, arOk.secretAccessKey, some arOk.sessionToken⟩ ∧
      (get_credentials envOk (some "arn:aws:iam::222222222222:role/CrossAccount")).trace
        = [.stsAssumeRole "arn:aws:iam::222222222222:role/CrossAccount"]) ∧
    ((get_credentials envOk none).result = .ok cDefault ∧
      (get_credentials envOk none).trace = []) :=
  ⟨(get_credentials_assume_or_default envOk).1
      "arn:aws:iam::222222222222:role/CrossAccount" arOk (by decide) rfl,
   (get_credentials_assume_or_default envOk).2 cDefault rfl⟩

/-- C5: on a successful `POST /apigw` the response dictionary carries the
proxied response's status code, its headers dict and its body text
(app.py lines 114-119); the fourth field is the signed request headers. -/
theorem apigw_success_returns_proxied_response (env : AwsEnv) (req : APIGatewayRequest)
    (c : Credentials) (resp : HttpResp)
    (hc : (get_credentials env req.assume_role_arn).result = .ok c)
    (hr : env.httpResp = .ok resp) :
    ∃ sent, (call_api_gateway env req).1
      = .success resp.status_code resp.headers resp.text sent := by
  refine ⟨sigv4AddAuth c env.amzDate "execute-api" req.region
    [("Host", urlNetloc req.api_gateway_url),
     ("Content-Type",
       if pyStrOptTruthy req.body then "application/json" else "text/plain")], ?_⟩
  simp [call_api_gateway, hc, hr]

/-- Witness for C5 at the concrete environment `envOk`. -/
theorem apigw_success_returns_proxied_response_witness :
    ∃ sent, (call_api_gateway envOk reqWithBody).1
      = .success respOk.status_code respOk.headers respOk.text sent :=
  apigw_success_returns_proxied_response envOk reqWithBody cDefault respOk rfl rfl

/-- C2: on `POST /apigw`, a failed role assumption or a failed proxied
HTTP request yields status 500 with a `detail` containing the underlying
exception text.  Role-assumption failures arrive as the helper's
`HTTPException(500, "Failed to assume role: " + str(e))`, re-wrapped by
the broad `except Exception` into `HTTPException(500, str(e))`
(app.py lines 131-133); `RequestException`s become the 500 `JSONResponse`
whose `detail` is `str(e)` itself (lines 121-130). -/
theorem apigw_failures_give_500_with_error_text (env : AwsEnv) (req : APIGatewayRequest) :
    (∀ m, pyStrOptTruthy req.assume_role_arn = true → env.assumeRole = .error m →
      (call_api_gateway env req).1.status = 500 ∧
      ∃ pre, (call_api_gateway env req).1.detail = some (pre ++ m)) ∧
    (∀ c m, (get_credentials env req.assume_role_arn).result = .ok c →
      env.httpResp = .error m →
      (call_api_gateway env req).1.status = 500 ∧
      ∃ pre, (call_api_gateway env req).1.detail = some (pre ++ m)) := by
  constructor
  · intro m hT hA
    refine ⟨?_, "500: Failed to assume role: ", ?_⟩ <;>
      simp [call_api_gateway, get_credentials, hT, hA, ApigwResponse.status,
        ApigwResponse.detail, PyExc.toStr]
    rfl
  · intro c m hc hr
    refine ⟨?_, "", ?_⟩ <;>
      simp [call_api_gateway, hc, hr, ApigwResponse.status, ApigwResponse.detail]

/-- Witness for C2: a failing assume-role call and, separately, a failing
proxied request, both at concrete inputs. -/
theorem apigw_failures_give_500_with_error_text_witness :
    ((call_api_gateway { envOk with assumeRole := .error "AccessDenied" } reqAssume).1.status = 500 ∧
      ∃ pre, (call_api_gateway { envOk with assumeRole := .error "AccessDenied" } reqAssume).1.detail
        = some (pre ++ "AccessDenied")) ∧
    ((call_api_gateway { envOk with httpResp := .error "Connection refused" } reqPlain).1.status = 500 ∧
      ∃ pre, (call_api_gateway { envOk with httpResp := .error "Connection refused" } reqPlain).1.detail
        = some (pre ++ "Connection refused")) :=
  ⟨(apigw_failures_give_500_with_error_text
      { envOk with assumeRole := .error "AccessDenied" } reqAssume).1
      "AccessDenied" (by decide) rfl,
   (apigw_failures_give_500_with_error_text
      { envOk with httpResp := .error "Connection refused" } reqPlain).2
      cDefault "Connection refused" rfl rfl⟩

/-- Masking a token by Python truthiness commutes with the debug log's
rendering of it: a `None` or empty token is logged as the string
"None" and returned as JSON null. -/
theorem tokenShownOf_mask (t : Option String) :
    tokenShownOf (if pyStrOptTruthy t then t else none) = tokenShownOf t := by
  cases t with
  | none => rfl
  | some s => cases h : s.isEmpty <;> simp [pyStrOptTruthy, tokenShownOf, h]

/-- C4: on a successful `POST /debug-apigw` the `credentials_used` fields
of the response body are exactly the credential values the handler logged
for the same request: the trace contains a `logCreds` event whose access
key, secret key and rendered session token agree with the response
(app.py lines 229-236 and 292-309). -/
theorem debug_response_credentials_match_logged (env : AwsEnv) (req : APIGatewayRequest)
    (d : DebugSuccess) (h : (debug_api_gateway env req).1 = .success d) :
    Event.logCreds d.credentials_used.access_key_id d.credentials_used.secret_access_key
        (tokenShownOf d.credentials_used.session_token)
      ∈ (debug_api_gateway env req).2 := by
  obtain ⟨ar, dc, ci, hr, po, jl, ad⟩ := env
  unfold debug_api_gateway get_credentials at h ⊢
  by_cases hT : pyStrOptTruthy req.assume_role_arn <;>
    cases ar <;> cases dc <;> cases ci <;> cases hr <;>
      simp_all <;>
      (subst h; exact ⟨rfl, rfl, tokenShownOf_mask _⟩)

/-- The credentials `/debug-apigw` uses after assuming the fixture role. -/
def credsAssumed : Credentials :=
  ⟨arOk.accessKeyId, arOk.secretAccessKey, some arOk.sessionToken⟩

/-- The success body of `/debug-apigw` at the concrete fixtures. -/
def debugSuccessOk : DebugSuccess :=
  { current_identity := idOk
    status_code := respOk.status_code
    response_headers := respOk.headers
    response_body := respOk.text
    request_headers_sent := sigv4AddAuth credsAssumed envOk.amzDate "execute-api"
      reqAssume.region
      [("Host", urlNetloc reqAssume.api_gateway_url),
       ("Content-Type",
         if pyStrOptTruthy reqAssume.body then "application/json" else "text/plain")]
    credentials_used :=
      ⟨credsAssumed.access_key, credsAssumed.secret_key,
       if pyStrOptTruthy credsAssumed.token then credsAssumed.token else none⟩
    request_info :=
      ⟨reqAssume.method, reqAssume.api_gateway_url, reqAssume.region, reqAssume.body⟩ }

/-- Witness for C4 at the concrete fixtures. -/
theorem debug_response_credentials_match_logged_witness :
    Event.logCreds debugSuccessOk.credentials_used.access_key_id
        debugSuccessOk.credentials_used.secret_access_key
        (tokenShownOf debugSuccessOk.credentials_used.session_token)
      ∈ (debug_api_gateway envOk reqAssume).2 :=
  debug_response_credentials_match_logged envOk reqAssume debugSuccessOk rfl

/-- C6: on a successful `POST /bucket` the handler issued a `put_object`
call carrying the file's bytes, the parsed bucket name and object key,
and the response's `etag` and `version_id` are the `ETag` and `VersionId`
of the `put_object` result (app.py lines 178-193). -/
theorem upload_success_puts_object_and_returns_etag (env : AwsEnv)
    (file : UploadFileModel) (r : String) (b k : JValue) (e v : Option String)
    (h : (upload_to_s3 env file r).1 = .success b k e v) :
    env.putObjectResp = .ok ⟨e, v⟩ ∧
    Event.s3PutObject b k file.content (uploadContentType file)
      ∈ (upload_to_s3 env file r).2 := by
  unfold upload_to_s3 at h ⊢
  cases hp : parseUploadRequest env r with
  | error pe => simp_all
  | ok x =>
    obtain ⟨bn, ok_, reg, arnOpt⟩ := x
    by_cases hA : jvOptTruthy arnOpt = true
    · cases har : env.assumeRole <;> cases hpo : env.putObjectResp <;> simp_all
      obtain ⟨-, -, he, hv⟩ := h
      subst he; subst hv
      rfl
    · cases hpo : env.putObjectResp <;> simp_all
      obtain ⟨-, -, he, hv⟩ := h
      subst he; subst hv
      rfl

/-- Witness for C6 at the concrete fixtures: a well-formed descriptor and
a successful upload. -/
theorem upload_success_puts_object_and_returns_etag_witness :
    envOk.putObjectResp = .ok ⟨putOk.etag, putOk.version_id⟩ ∧
    Event.s3PutObject (.str "my-bucket") (.str "my/key.txt") fileTxt.content
        (uploadContentType fileTxt)
      ∈ (upload_to_s3 envOk fileTxt goodReqStr).2 :=
  upload_success_puts_object_and_returns_etag envOk fileTxt goodReqStr
    (.str "my-bucket") (.str "my/key.txt") putOk.etag putOk.version_id rfl

/-- SigV4 signing appends its own headers and never alters the
`Content-Type` entry the handlers set. -/
theorem lookup_content_type_sigv4 (c : Credentials) (ad rg h0 v : String) :
    (sigv4AddAuth c ad "execute-api" rg
        [("Host", h0), ("Content-Type", v)]).lookup "Content-Type" = some v := by
  cases t : c.token <;> simp [sigv4AddAuth, t, List.lookup]

/-- C10: every proxied request `/apigw` or `/debug-apigw` issues carries a
signed `Content-Type` of `application/json` exactly when the request body
is supplied (non-empty; Python truthiness of `request.body`, app.py lines
86-89 and 250-253), `text/plain` otherwise; and every `put_object` call
`/bucket` issues uses the file's content type, falling back to
`application/octet-stream` when the file has none (line 182). -/
theorem outbound_content_type_rule (env : AwsEnv) (req : APIGatewayRequest)
    (file : UploadFileModel) (r : String) :
    (∀ m u hs d t, Event.httpRequest m u hs d t ∈ (call_api_gateway env req).2 →
      (hs.lookup "Content-Type" = some "application/json"
        ↔ pyStrOptTruthy req.body = true) ∧
      (hs.lookup "Content-Type" = some "text/plain"
        ↔ pyStrOptTruthy req.body = false)) ∧
    (∀ m u hs d t, Event.httpRequest m u hs d t ∈ (debug_api_gateway env req).2 →
      (hs.lookup "Content-Type" = some "application/json"
        ↔ pyStrOptTruthy req.body = true) ∧
      (hs.lookup "Content-Type" = some "text/plain"
        ↔ pyStrOptTruthy req.body = false)) ∧
    (∀ b k body ct, Event.s3PutObject b k body ct ∈ (upload_to_s3 env file r).2 →
      (∀ c, file.content_type = some c → c ≠ "" → ct = c) ∧
      ((file.content_type = none ∨ file.content_type = some "") →
        ct = "application/octet-stream")) := by
  obtain ⟨ar, dc, ci, hr, po, jl, ad⟩ := env
  refine ⟨?_, ?_, ?_⟩
  · intro m u hs d t hmem
    unfold call_api_gateway get_credentials at hmem
    by_cases hT : pyStrOptTruthy req.assume_role_arn <;>
      cases ar <;> cases dc <;> cases hr <;>
        simp_all [lookup_content_type_sigv4]
  · intro m u hs d t hmem
    unfold debug_api_gateway get_credentials at hmem
    by_cases hT : pyStrOptTruthy req.assume_role_arn <;>
      cases ar <;> cases dc <;> cases ci <;> cases hr <;>
        simp_all [lookup_content_type_sigv4]
  · intro b k body ct hmem
    unfold upload_to_s3 at hmem
    cases hp : parseUploadRequest ⟨ar, dc, ci, hr, po, jl, ad⟩ r with
    | error pe => simp_all
    | ok x =>
      obtain ⟨bn, ok_, reg, arnOpt⟩ := x
      by_cases hA : jvOptTruthy arnOpt = true <;>
        cases har : ar <;> cases hpo : po <;>
          simp_all [uploadContentType] <;>
            cases hct : file.content_type with
            | none => simp_all
            | some c => cases hce : c.isEmpty <;>
                simp_all [String.isEmpty_iff]

/-- The signed headers `/apigw` sends for the fixture request that has a
body. -/
def sentHeadersWithBody : List (String × String) :=
  sigv4AddAuth cDefault envOk.amzDate "execute-api" reqWithBody.region
    [("Host", urlNetloc reqWithBody.api_gateway_url),
     ("Content-Type", "application/json")]

/-- Witness for C10: the fixture request with a body is sent with
`Content-Type: application/json`, and the fixture upload uses the file's
own content type. -/
theorem outbound_content_type_rule_witness :
    (sentHeadersWithBody.lookup "Content-Type" = some "application/json"
      ↔ pyStrOptTruthy reqWithBody.body = true) ∧
    uploadContentType fileTxt = "text/plain" :=
  ⟨((outbound_content_type_rule envOk reqWithBody fileTxt goodReqStr).1
      "POST" reqWithBody.api_gateway_url sentHeadersWithBody reqWithBody.body 30
      (List.mem_singleton.mpr rfl)).1,
   ((outbound_content_type_rule envOk reqWithBody fileTxt goodReqStr).2.2
      (.str "my-bucket") (.str "my/key.txt") fileTxt.content
      (uploadContentType fileTxt)
      (List.mem_singleton.mpr rfl)).1 "text/plain" rfl (by decide)⟩

/-- C1 is a code bug: app.py line 153 raises `HTTPException(400,
"Invalid request format: " + str(e))` for malformed input, but that
exception is itself caught by the handler's `except Exception` at line
195 and re-raised as `HTTPException(500, str(e))`, so the observable
response for a non-JSON form field, or for valid JSON missing
`bucket_name`, is status 500 (with the intended 400 and its detail only
surviving inside the detail text), never the 400 the code intends and the
specification states.  Both malformed inputs are evaluated concretely
here. -/
theorem upload_malformed_input_yields_500_not_400 :
    (upload_to_s3 envOk fileTxt "not json").1
      = .httpError 500
          "400: Invalid request format: Expecting value: line 1 column 1 (char 0)" ∧
    (upload_to_s3 envOk fileTxt "\x7b\x7d").1
      = .httpError 500 "400: Invalid request format: 'bucket_name'" ∧
    (upload_to_s3 envOk fileTxt "not json").1.status = 500 ∧
    (upload_to_s3 envOk fileTxt "\x7b\x7d").1.status = 500 ∧
    ¬(upload_to_s3 envOk fileTxt "not json").1.status = 400 := by
  refine ⟨rfl, rfl, rfl, rfl, by decide⟩

/-- Oracle outcomes in which the default credential chain is empty. -/
def envNoCreds : AwsEnv := { envOk with defaultCreds := none }

/-- C9 counterexample: with no role ARN and an empty default credential
chain, `/apigw` responds 500 but its detail is the re-wrapped string
"500: No AWS credentials found", not the bare
"No AWS credentials found" the claim states: the helper's
`HTTPException` is caught by the handler's `except Exception` and
re-raised with `str(e)`, which prefixes the status code. -/
theorem no_default_creds_detail_is_wrapped :
    (call_api_gateway envNoCreds reqPlain).1.status = 500 ∧
    ¬(call_api_gateway envNoCreds reqPlain).1.detail
        = some "No AWS credentials found" ∧
    (call_api_gateway envNoCreds reqPlain).1.detail
        = some "500: No AWS credentials found" := by
  refine ⟨rfl, by decide, rfl⟩

/-- C9 amended: with no `assume_role_arn` and an empty default credential
chain, `/apigw` and `/debug-apigw` respond 500 with detail
"500: No AWS credentials found" - the helper's
`HTTPException(500, "No AWS credentials found")` re-wrapped by the broad
`except Exception` of each handler (app.py lines 54-59, 131-133,
311-313). -/
theorem no_default_creds_gives_500_wrapped_detail (env : AwsEnv)
    (req : APIGatewayRequest)
    (hA : req.assume_role_arn = none) (hC : env.defaultCreds = none) :
    (call_api_gateway env req).1
      = .httpError 500 "500: No AWS credentials found" ∧
    (debug_api_gateway env req).1
      = .httpError 500 "500: No AWS credentials found" := by
  constructor <;>
    simp [call_api_gateway, debug_api_gateway, get_credentials, hA, hC,
      pyStrOptTruthy, PyExc.toStr] <;> rfl

/-- Witness for the amended C9 at the concrete empty-chain fixtures. -/
theorem no_default_creds_gives_500_wrapped_detail_witness :
    (call_api_gateway envNoCreds reqPlain).1
      = .httpError 500 "500: No AWS credentials found" ∧
    (debug_api_gateway envNoCreds reqPlain).1
      = .httpError 500 "500: No AWS credentials found" :=
  no_default_creds_gives_500_wrapped_detail envNoCreds reqPlain rfl rfl
